import Mathlib

/-!
# go-whosonfirst-pgis: the indexing engine of `index/index.go`

A shallow embedding of `PgisClient` and its operations (`NewPgisClient`,
`dbconn`, `IndexFile`, `IndexFeature`, `IndexMetaFile`, `IndexFileList`).

Conventions of the embedding

* Go `int`/`int64` values are `Int`; the code performs no arithmetic on them.
* A `float64` is carried as its IEEE-754 bit pattern; the code only moves
  such values from the decoded document into the geometry it builds. Every
  `float64` of the program is decoded from JSON and so is finite.
* A buffered `chan bool` is its capacity and the number of tokens in it.
* The libraries the package calls (`gabs`, `go-whosonfirst-geojson`,
  `go-whosonfirst-placetypes`, `encoding/json`, `database/sql`, `bufio`,
  `go-whosonfirst-csv`) are outside the package: their pure lookups are
  embedded as functions on decoded JSON, and their outcomes that depend on
  the outside world are explicit inputs of each call.
* `json.Marshal` on the structs `Geometry` and `GeometryPoly` is embedded with
  their json tags; only the decimal text of a number is an input. Its text on
  a `Meta` and on a decoded document is an input.
* `sql.Open` looks the driver up without connecting; the package registers
  the driver `postgres` by its blank import of `lib/pq`.
* `log.Println`/`log.Printf` output is not part of the state.
-/

namespace Pgis

/-! ## Values -/

/-- Go `float64` as decoded from a JSON document: the 64-bit pattern of the
value. A JSON number is finite, so the exponent field (bits 52 to 62) is not
all ones. -/
structure Float64 where
  bits : Nat
  finite : (bits / 4503599627370496) % 2048 ≠ 2047
deriving DecidableEq, Repr

/-- The zero value of `float64`. -/
def Float64.zero : Float64 := ⟨0, by decide⟩

/-- The decoded form of a JSON document, as `encoding/json` produces it in an
`interface{}`: `nil`, `bool`, `float64`, `string`, `[]interface{}`,
`map[string]interface{}`. -/
inductive JSON where
  | null : JSON
  | bool (b : Bool) : JSON
  | num (x : Float64) : JSON
  | str (s : String) : JSON
  | arr (xs : List JSON) : JSON
  | obj (kvs : List (String × JSON)) : JSON
deriving Repr

/-- How a call of the package ends. -/
inductive Outcome where
  /-- The call returns `nil`. -/
  | ok : Outcome
  /-- The call returns a non-nil `error` with this message. -/
  | error (msg : String) : Outcome
  /-- The goroutine panics (a run-time error, not a returned `error`). -/
  | panic (msg : String) : Outcome
  /-- The goroutine blocks for ever on a channel operation. -/
  | blocked : Outcome
deriving DecidableEq, Repr

/-! ## gabs.Container over decoded JSON -/

mutual
/-- The `(*gabs.Container).Search(hierarchy...)`: descend through objects by key;
on an array, search every element for the rest of the hierarchy and collect
the hits in an array. `none` is the nil container. -/
def JSON.Search : JSON → List String → Option JSON
  | j, [] => some j
  | JSON.obj kvs, k :: ks => searchObj kvs k ks
  | JSON.arr xs, k :: ks =>
    match searchArr xs (k :: ks) with
    | [] => none
    | t :: ts => some (JSON.arr (t :: ts))
  | JSON.null, _ :: _ => none
  | JSON.bool _, _ :: _ => none
  | JSON.num _, _ :: _ => none
  | JSON.str _, _ :: _ => none
/-- The map lookup `mmap[hierarchy[target]]` followed by the rest of the search. -/
def searchObj : List (String × JSON) → String → List String → Option JSON
  | [], _, _ => none
  | (k', v) :: rest, k, ks => if k' = k then v.Search ks else searchObj rest k ks
/-- The loop over `marray` in the array branch of `Search`. -/
def searchArr : List JSON → List String → List JSON
  | [], _ => []
  | x :: xs, h =>
    match x.Search h with
    | none => searchArr xs h
    | some d => d :: searchArr xs h
end

/-- The `strings.Split(path, ".")`, on the characters of the path, `acc` holding
the current segment in reverse. -/
def splitDot : List Char → List Char → List String
  | acc, [] => [String.mk acc.reverse]
  | acc, c :: cs =>
    if c = '.' then String.mk acc.reverse :: splitDot [] cs else splitDot (c :: acc) cs

/-- The `(*gabs.Container).Path(path)`: `Search` along the dot-separated path. -/
def JSON.Path (j : JSON) (path : String) : Option JSON :=
  j.Search (splitDot [] path.data)

/-- The `(*gabs.Container).S(hierarchy...)`, the short name of `Search`. -/
def JSON.S (j : JSON) (hierarchy : List String) : Option JSON :=
  j.Search hierarchy

/-- The `(*gabs.Container).Data()`: the wrapped value, `nil` for the nil container. -/
def Data : Option JSON → JSON
  | none => JSON.null
  | some j => j

/-- The `(*gabs.Container).Children()`: the elements of an array or the values
of an object; for anything else `nil` and `ErrNotObjOrArray`. Go leaves the
order in which it ranges over a map open: the pairs of a `JSON.obj` are listed
in the order in which the run at hand ranges over the map. -/
def Children (c : Option JSON) : List JSON × Option String :=
  match Data c with
  | JSON.arr xs => (xs, none)
  | JSON.obj kvs => (kvs.map Prod.snd, none)
  | _ => ([], some "not an object or array")

/-- The two-valued type assertion `v, ok = x.(float64)`: on failure the zero
value and `false`. -/
def assertFloat64 : JSON → Float64 × Bool
  | JSON.num x => (x, true)
  | _ => (Float64.zero, false)

/-! ## The types of `index.go` -/

/-- The struct `Meta`, serialized under the keys `wof:name`, `wof:country`, `wof:hierarchy`. -/
structure Meta where
  Name : String
  Country : String
  Hierarchy : List (List (String × Int))
deriving DecidableEq, Repr

/-- The slice type `Coords []float64`. -/
abbrev Coords := List Float64

/-- The slice type `Polygon []Coords`. -/
abbrev Polygon := List Coords

/-- The struct `Geometry`, serialized under the keys `type` and `coordinates`. -/
structure Geometry where
  Type_ : String
  Coordinates : Coords
deriving DecidableEq, Repr

/-- The struct `GeometryPoly`, serialized under the keys `type` and `coordinates`. -/
structure GeometryPoly where
  Type_ : String
  Coordinates : List Polygon
deriving DecidableEq, Repr

/-- A value handed to `json.Marshal` somewhere in the package. -/
inductive GoValue where
  | geometry (g : Geometry) : GoValue
  | geometryPoly (g : GeometryPoly) : GoValue
  | meta (m : Meta) : GoValue
  | json (j : JSON) : GoValue

/-- The part of `placetypes.WOFPlacetype` the package reads. -/
structure WOFPlacetype where
  Id : Int
deriving DecidableEq, Repr

/-- A buffered `chan bool`: its capacity and the number of values in it. -/
structure Chan where
  cap : Nat
  len : Nat
deriving DecidableEq, Repr

/-- The receive `<-c`: `none` when the channel is empty (the receiver blocks). -/
def Chan.recv (c : Chan) : Option Chan :=
  if c.len = 0 then none else some { c with len := c.len - 1 }

/-- The send `c <- true`: `none` when the buffer is full (the sender blocks). -/
def Chan.send (c : Chan) : Option Chan :=
  if c.len < c.cap then some { c with len := c.len + 1 } else none

/-- The configuration fields of `PgisClient`; the contents of the channel
`conns` live in `State`. -/
structure PgisClient where
  Geometry : String
  Placetypes : String → Except String WOFPlacetype
  Debug : Bool
  Verbose : Bool
  dsn : String

/-- What `geojson.WOFFeature` answers to the calls `IndexFeature` makes. -/
structure WOFFeature where
  Id : Int
  Body : JSON
  Placetype : String
  StringProperty : String → Option String
  IntProperty : String → Option Int
  Deprecated : Bool
  Superseded : Bool
  Name : String
  Hierarchy : List (List (String × Int))

/-! ## The store -/

/-- A bound parameter of `db.Exec`. -/
inductive SqlArg where
  | int (i : Int) : SqlArg
  | str (s : String) : SqlArg
deriving DecidableEq, Repr

/-- The statement text of `IndexFeature`: its format string with the values
of the two `%s` verbs, the geometry expression of the `VALUES` list and the
one of the `DO UPDATE SET` list. -/
structure Upsert where
  valuesGeom : String
  setGeom : String
deriving DecidableEq, Repr

/-- The text `fmt.Sprintf` builds for the statement. -/
def Upsert.text (u : Upsert) : String :=
  "INSERT INTO whosonfirst (id, parent_id, placetype_id, is_superseded, is_deprecated, meta, geom) VALUES ($1, $2, $3, $4, $5, $6, "
    ++ u.valuesGeom
    ++ ") ON CONFLICT(id) DO UPDATE SET parent_id=$7, placetype_id=$8, is_superseded=$9, is_deprecated=$10, meta=$11, geom="
    ++ u.setGeom

/-- One call of `db.Exec`: the statement and its bound parameters `$1`, `$2`, ... -/
structure Statement where
  sql : Upsert
  args : List SqlArg
deriving DecidableEq, Repr

/-- A row of the table `whosonfirst`; `geom` holds the expression the row's
geometry was constructed from. -/
structure Row where
  id : Int
  parent_id : Int
  placetype_id : Int
  is_superseded : Int
  is_deprecated : Int
  meta : String
  geom : String
deriving DecidableEq, Repr

/-- The mutable state a client works on: the tokens in `client.conns`, the
rows of the table, and the statements sent to the store so far. -/
structure State where
  conns : Chan
  rows : List Row
  issued : List Statement
deriving DecidableEq, Repr

/-- The store executing the statement: `INSERT ... VALUES ($1..$6, geom)
ON CONFLICT(id) DO UPDATE SET parent_id=$7, placetype_id=$8, is_superseded=$9,
is_deprecated=$10, meta=$11, geom=geom`. A row whose id is `$1` is
overwritten with the `SET` values; without one the `VALUES` row is added. -/
def execUpsert (rows : List Row) (st : Statement) : Except String (List Row) :=
  match st.args with
  | [SqlArg.int id, SqlArg.int p, SqlArg.int pt, SqlArg.int sup, SqlArg.int dep, SqlArg.str m,
      SqlArg.int p', SqlArg.int pt', SqlArg.int sup', SqlArg.int dep', SqlArg.str m'] =>
    if rows.any (fun r => decide (r.id = id)) then
      Except.ok (rows.map fun r =>
        if r.id = id then
          { r with parent_id := p', placetype_id := pt', is_superseded := sup',
                   is_deprecated := dep', meta := m', geom := st.sql.setGeom }
        else r)
    else
      Except.ok (rows ++ [⟨id, p, pt, sup, dep, m, st.sql.valuesGeom⟩])
  | _ => Except.error "pq: the statement's parameters do not match its placeholders"

/-- How a call of `db.Exec` fails. -/
inductive ExecFailure where
  /-- No session reaches the store (connection refused or lost): the
  statement is not sent. -/
  | session (err : String) : ExecFailure
  /-- The store receives the statement and rejects it (geometry rejected,
  constraint violated, ...). -/
  | store (err : String) : ExecFailure
deriving DecidableEq, Repr

/-- What the outside world does during one call of `IndexFeature`, and the
parts of `encoding/json` whose text is left open. -/
structure Env where
  /-- The decimal text `encoding/json` writes for a finite `float64`. -/
  formatFloat : Float64 → String
  /-- The quoted text `encoding/json` writes for a string that holds
  characters it escapes. -/
  escapeString : String → String
  /-- The function `json.Marshal` on a `Meta`. -/
  MarshalMeta : Meta → Except String String
  /-- The function `json.Marshal` on a decoded document. -/
  MarshalJSON : JSON → Except String String
  /-- The failure of this `Exec`, if there is one. -/
  execErr : Option ExecFailure

/-! ## encoding/json on the geometry structs -/

/-- The elements of a JSON array, separated by commas. -/
def joinComma : List String → String
  | [] => ""
  | [x] => x
  | x :: y :: rest => x ++ "," ++ joinComma (y :: rest)

/-- Whether the encoder copies a character of a string as it is: printable
ASCII other than the double quote (34), the backslash (92) and the characters
`<` (60), `>` (62), `&` (38), which it escapes. -/
def plainChar (c : Char) : Bool :=
  decide (32 ≤ c.toNat) && decide (c.toNat < 127) && decide (c.toNat ≠ 34)
    && decide (c.toNat ≠ 92) && decide (c.toNat ≠ 60) && decide (c.toNat ≠ 62)
    && decide (c.toNat ≠ 38)

/-- The text of a Go string: between double quotes, as it is when no
character needs an escape. -/
def encodeString (env : Env) (s : String) : String :=
  if s.data.all plainChar then "\"" ++ s ++ "\"" else env.escapeString s

/-- The text of a `Coords` built by the package (never nil): the numbers in
brackets. -/
def encodeCoords (env : Env) (c : Coords) : String :=
  "[" ++ joinComma (c.map env.formatFloat) ++ "]"

/-- The text of a `Polygon` built by the package: its positions in brackets. -/
def encodePolygon (env : Env) (poly : Polygon) : String :=
  "[" ++ joinComma (poly.map (encodeCoords env)) ++ "]"

/-- The text of a `Geometry`: an object with the members `type` and
`coordinates`, the json tags of the struct, in the order of its fields. -/
def encodeGeometry (env : Env) (g : Geometry) : String :=
  "\x7b\"type\":" ++ encodeString env g.Type_ ++ ",\"coordinates\":"
    ++ encodeCoords env g.Coordinates ++ "\x7d"

/-- The text of a `GeometryPoly`: an object with the members `type` and
`coordinates`, the json tags of the struct, in the order of its fields. -/
def encodeGeometryPoly (env : Env) (g : GeometryPoly) : String :=
  "\x7b\"type\":" ++ encodeString env g.Type_ ++ ",\"coordinates\":"
    ++ "[" ++ joinComma (g.Coordinates.map (encodePolygon env)) ++ "]" ++ "\x7d"

/-- The function `json.Marshal` on the values the package hands to it. On the
two geometry structs it cannot fail: their strings and finite numbers all
have a text. -/
def Env.Marshal (env : Env) : GoValue → Except String String
  | GoValue.geometry g => Except.ok (encodeGeometry env g)
  | GoValue.geometryPoly g => Except.ok (encodeGeometryPoly env g)
  | GoValue.meta m => env.MarshalMeta m
  | GoValue.json j => env.MarshalJSON j

/-- The driver names registered with `database/sql`: the blank import of
`github.com/lib/pq` registers `postgres`. -/
def registeredDrivers : List String := ["postgres"]

/-- The `sql.Open(driverName, dataSourceName)`: it looks the driver up and keeps
the data source name, without opening a connection; for a registered driver
it returns no error. -/
def sqlOpen (driverName _dataSourceName : String) : Option String :=
  if driverName ∈ registeredDrivers then none
  else some ("sql: unknown driver " ++ driverName ++ " (forgotten import?)")

/-- The `strconv.Itoa`. -/
def Itoa (i : Int) : String := toString i

/-- The `(*gabs.Container).String()`: the serialized value, `{}` for `nil` or on a
serialization error. -/
def containerString (env : Env) (c : Option JSON) : String :=
  match Data c with
  | JSON.null => "\x7b\x7d"
  | d =>
    match env.Marshal (GoValue.json d) with
    | Except.ok s => s
    | Except.error _ => "\x7b\x7d"

/-! ## The client -/

/-- What the outside world does during `NewPgisClient`. -/
structure NewEnv where
  /-- The result of `placetypes.Init()`. -/
  placetypesInit : Except String (String → Except String WOFPlacetype)
  /-- The error of `db.Ping()`, if it returns one. -/
  ping : Option String

/-- The loop `for i := 0; i < maxconns; i++ { conns <- true }`, with `n`
iterations left; `none` when a send blocks. -/
def fillConns : Nat → Chan → Option Chan
  | 0, c => some c
  | n + 1, c =>
    match c.send with
    | none => none
    | some c' => fillConns n c'

/-- The constructor `NewPgisClient`: the client and the channel `conns` it is built with. -/
def NewPgisClient (env : NewEnv) (host : String) (port : Int) (user password dbname : String)
    (maxconns : Int) : Except Outcome (PgisClient × Chan) :=
  match env.placetypesInit with
  | Except.error err => Except.error (Outcome.error err)
  | Except.ok pt =>
    let dsn := "host=" ++ host ++ " port=" ++ Itoa port ++ " user=" ++ user
      ++ " password=" ++ password ++ " dbname=" ++ dbname ++ " sslmode=disable"
    match sqlOpen "postgres" dsn with
    | some err => Except.error (Outcome.error err)
    | none =>
      match env.ping with
      | some err => Except.error (Outcome.error err)
      | none =>
        if maxconns < 0 then
          Except.error (Outcome.panic "makechan: size out of range")
        else
          let conns : Chan := ⟨maxconns.toNat, 0⟩
          match fillConns maxconns.toNat conns with
          | none => Except.error Outcome.blocked
          | some conns =>
            Except.ok
              ({ Placetypes := pt, Geometry := "", Debug := false, Verbose := false, dsn := dsn },
               conns)

/-- The method `dbconn`: take a token from `client.conns`, then open the
session. `none` when the receive blocks; otherwise the channel after the
receive and the error of `sql.Open`, if any. -/
def dbconn (client : PgisClient) (conns : Chan) : Option (Chan × Option String) :=
  match conns.recv with
  | none => none
  | some conns' =>
    match sqlOpen "postgres" client.dsn with
    | some err => some (conns', some err)
    | none => some (conns', none)

/-- The checked element access `children[i].Data().(float64)` of the bbox
branch: out of range and a failed one-valued assertion both panic. -/
def childFloat64 (children : List JSON) (i : Nat) : Except Outcome Float64 :=
  match children.get? i with
  | none => Except.error (Outcome.panic "runtime error: index out of range")
  | some c =>
    match c with
    | JSON.num x => Except.ok x
    | _ => Except.error (Outcome.panic "interface conversion: interface is not float64")

/-- The polygon built in the bbox branch of `IndexFeature` from the four numbers. -/
def bboxPoly (swlon swlat nelon nelat : Float64) : GeometryPoly :=
  let poly : Polygon := [
    [swlon, swlat],
    [swlon, nelat],
    [nelon, nelat],
    [nelon, swlat],
    [swlon, swlat]]
  let polys : List Polygon := [poly]
  { Type_ := "Polygon", Coordinates := polys }

/-- The steps `bytes, err := json.Marshal(geom)`, `return err` on an error,
`str_geom = string(bytes)` otherwise. -/
def marshal (env : Env) (geom : GoValue) : Except Outcome String :=
  match env.Marshal geom with
  | Except.error err => Except.error (Outcome.error err)
  | Except.ok bytes => Except.ok bytes

/-- The first part of `IndexFeature` after the root check: the computation of
`str_geom` from `client.Geometry` and the feature body. -/
def strGeom (client : PgisClient) (env : Env) (body : JSON) : Except Outcome String :=
  if client.Geometry = "" then
    let geom := body.Path "geometry"
    Except.ok (containerString env geom)
  else if client.Geometry = "bbox" then
    let children := (Children (body.S ["bbox"])).1
    match childFloat64 children 0 with
    | Except.error o => Except.error o
    | Except.ok swlon =>
    match childFloat64 children 1 with
    | Except.error o => Except.error o
    | Except.ok swlat =>
    match childFloat64 children 2 with
    | Except.error o => Except.error o
    | Except.ok nelon =>
    match childFloat64 children 3 with
    | Except.error o => Except.error o
    | Except.ok nelat =>
      let geom := bboxPoly swlon swlat nelon nelat
      marshal env (GoValue.geometryPoly geom)
  else if client.Geometry = "centroid" then
    let (lat, lat_ok) := assertFloat64 (Data (body.Path "properties.lbl:latitude"))
    let (lon, lon_ok) := assertFloat64 (Data (body.Path "properties.lbl:longitude"))
    let (lat, lat_ok, lon, lon_ok) :=
      if !lat_ok || !lon_ok then
        let (lat, lat_ok) := assertFloat64 (Data (body.Path "properties.geom:latitude"))
        let (lon, lon_ok) := assertFloat64 (Data (body.Path "properties.geom:longitude"))
        (lat, lat_ok, lon, lon_ok)
      else (lat, lat_ok, lon, lon_ok)
    if !lat_ok || !lon_ok then
      Except.error (Outcome.error "can't find centroid")
    else
      let coords : Coords := [lon, lat]
      let geom : Geometry := { Type_ := "Point", Coordinates := coords }
      marshal env (GoValue.geometry geom)
  else
    Except.error (Outcome.error "unknown geometry filter")

/-- The call `db.Exec(sql, args...)`: without a session nothing is sent;
otherwise the statement reaches the store, which applies it unless it
rejects it. -/
def Exec (env : Env) (s : State) (st : Statement) : Option String × State :=
  match env.execErr with
  | some (ExecFailure.session err) => (some err, s)
  | some (ExecFailure.store err) => (some err, { s with issued := s.issued ++ [st] })
  | none =>
    let s := { s with issued := s.issued ++ [st] }
    match execUpsert s.rows st with
    | Except.error err => (some err, s)
    | Except.ok rows => (none, { s with rows := rows })

/-- The deferred function of `IndexFeature`: `db.Close()` and `client.conns <- true`;
the call ends with `result` once the send is through. -/
def deferred (result : Outcome) (s : State) : Outcome × State :=
  match s.conns.send with
  | none => (Outcome.blocked, s)
  | some conns => (result, { s with conns := conns })

/-- The method `IndexFeature`. -/
def IndexFeature (client : PgisClient) (env : Env) (s : State) (feature : WOFFeature)
    (_collection : String) : Outcome × State :=
  let wofid := feature.Id
  if wofid = 0 then
    (Outcome.ok, s)
  else
    let str_wofid := Itoa wofid
    let body := feature.Body
    match strGeom client env body with
    | Except.error o => (o, s)
    | Except.ok str_geom =>
    let placetype := feature.Placetype
    match client.Placetypes placetype with
    | Except.error err => (Outcome.error err, s)
    | Except.ok pt =>
    match feature.StringProperty "wof:repo" with
    | none => (Outcome.error ("can't find wof:repo for " ++ str_wofid), s)
    | some repo =>
    if repo = "" then
      (Outcome.error ("missing wof:repo for " ++ str_wofid), s)
    else
      let parent : Int :=
        match feature.IntProperty "wof:parent_id" with
        | none => -1
        | some parent => parent
      let is_deprecated : Int := if feature.Deprecated then 1 else 0
      let is_superseded : Int := if feature.Superseded then 1 else 0
      let name := feature.Name
      let country :=
        match feature.StringProperty "wof:country" with
        | none => "XX"
        | some country => country
      let hier := feature.Hierarchy
      let meta : Meta := { Name := name, Country := country, Hierarchy := hier }
      match env.Marshal (GoValue.meta meta) with
      | Except.error err => (Outcome.error err, s)
      | Except.ok str_meta =>
      let st_geojson := "ST_GeomFromGeoJSON('" ++ str_geom ++ "')"
      let st_geojson :=
        if client.Verbose then
          if client.Geometry = "" then "ST_GeomFromGeoJSON('...')" else st_geojson
        else st_geojson
      if !client.Debug then
        match dbconn client s.conns with
        | none => (Outcome.blocked, s)
        | some (conns, some err) => (Outcome.error err, { s with conns := conns })
        | some (conns, none) =>
          let s := { s with conns := conns }
          let sql : Upsert := { valuesGeom := st_geojson, setGeom := st_geojson }
          let (err, s) := Exec env s
            { sql := sql,
              args := [SqlArg.int wofid, SqlArg.int parent, SqlArg.int pt.Id,
                SqlArg.int is_superseded, SqlArg.int is_deprecated, SqlArg.str str_meta,
                SqlArg.int parent, SqlArg.int pt.Id, SqlArg.int is_superseded,
                SqlArg.int is_deprecated, SqlArg.str str_meta] }
          match err with
          | some err => deferred (Outcome.error err) s
          | none => deferred Outcome.ok s
      else
        (Outcome.ok, s)

/-! ## The batch drivers

The drivers start one goroutine per record. The embedding runs each task to
its end at the point where it is started, one of the schedules the Go
runtime allows. A task that panics takes the process down; a task that
blocks keeps `wg.Wait()` from returning. -/

/-- What the outside world does during a batch run. -/
structure Sys where
  /-- The function `geojson.UnmarshalFile`. -/
  UnmarshalFile : String → Except String WOFFeature
  /-- The outside world during the indexing of the file at a path. -/
  env : String → Env
  /-- The function `filepath.Join` on two elements. -/
  Join : String → String → String
  /-- The value of `runtime.GOMAXPROCS(0)`. -/
  GOMAXPROCS : Nat

/-- The method `IndexFile`. -/
def IndexFile (client : PgisClient) (sys : Sys) (s : State) (abs_path : String)
    (collection : String) : Outcome × State :=
  match sys.UnmarshalFile abs_path with
  | Except.error err => (Outcome.error err, s)
  | Except.ok feature => IndexFeature client (sys.env abs_path) s feature collection

/-- What a `bufio.Scanner` over the opened list file yields: the lines for
which `Scan()` is true, then the value of `scanner.Err()` once `Scan()` is
false (`none` at a clean end of file). -/
structure Scanner where
  lines : List String
  err : Option String

/-- The loop `for scanner.Scan()` of `IndexFileList` followed by `wg.Wait()`
and `return nil`; `ch` is the channel of worker slots. -/
def fileListLoop (client : PgisClient) (sys : Sys) (collection : String) :
    List String → Chan → State → Outcome × State
  | [], _, s => (Outcome.ok, s)
  | path :: rest, ch, s =>
    match ch.recv with
    | none => (Outcome.blocked, s)
    | some ch =>
      match IndexFile client sys s path collection with
      | (Outcome.panic msg, s) => (Outcome.panic msg, s)
      | (Outcome.blocked, s) => (Outcome.blocked, s)
      | (_, s) =>
        match ch.send with
        | none => (Outcome.blocked, s)
        | some ch => fileListLoop client sys collection rest ch s

/-- The method `IndexFileList`; `file` is the result of `os.Open(abs_path)`. -/
def IndexFileList (client : PgisClient) (sys : Sys) (s : State)
    (file : Except String Scanner) (collection : String) : Outcome × State :=
  match file with
  | Except.error err => (Outcome.error err, s)
  | Except.ok scanner =>
    let count := sys.GOMAXPROCS
    let ch : Chan := ⟨count, count⟩
    fileListLoop client sys collection scanner.lines ch s

/-- What a `csv.DictReader` yields: the results of the calls of `Read()`
that come before `io.EOF`, each a row or an error other than `io.EOF`. -/
structure DictReader where
  reads : List (Except String (List (String × String)))

/-- The `for` loop of `IndexMetaFile` followed by `wg.Wait()` and `return nil`. -/
def metaFileLoop (client : PgisClient) (sys : Sys) (collection data_root : String) :
    List (Except String (List (String × String))) → Chan → State → Outcome × State
  | [], _, s => (Outcome.ok, s)
  | Except.error err :: _, _, s => (Outcome.error err, s)
  | Except.ok row :: rest, ch, s =>
    match row.lookup "path" with
    | none => (Outcome.error "missing 'path' column in meta file", s)
    | some rel_path =>
      let abs_path := sys.Join data_root rel_path
      match ch.recv with
      | none => (Outcome.blocked, s)
      | some ch =>
        match IndexFile client sys s abs_path collection with
        | (Outcome.panic msg, s) => (Outcome.panic msg, s)
        | (Outcome.blocked, s) => (Outcome.blocked, s)
        | (_, s) =>
          match ch.send with
          | none => (Outcome.blocked, s)
          | some ch => metaFileLoop client sys collection data_root rest ch s

/-- The method `IndexMetaFile`; `reader` is the result of
`csv.NewDictReaderFromPath(csv_path)`. -/
def IndexMetaFile (client : PgisClient) (sys : Sys) (s : State)
    (reader : Except String DictReader) (collection data_root : String) : Outcome × State :=
  match reader with
  | Except.error err => (Outcome.error err, s)
  | Except.ok reader =>
    let count := sys.GOMAXPROCS
    let ch : Chan := ⟨count, count⟩
    metaFileLoop client sys collection data_root reader.reads ch s

/-! ## The two halves of `IndexFeature`

`IndexFeature` first derives the statement from the feature and then, unless
`Debug` is set, runs it on a pooled session. The two halves are named here so
that theorems can speak about them; `IndexFeature_eq` shows that `IndexFeature`
is their composition. -/

/-- The statement `IndexFeature` builds for a non-root feature, or the outcome
with which it returns before building one. -/
def statementOf (client : PgisClient) (env : Env) (feature : WOFFeature) :
    Except Outcome Statement :=
  match strGeom client env feature.Body with
  | Except.error o => Except.error o
  | Except.ok str_geom =>
    match client.Placetypes feature.Placetype with
    | Except.error err => Except.error (Outcome.error err)
    | Except.ok pt =>
      match feature.StringProperty "wof:repo" with
      | none => Except.error (Outcome.error ("can't find wof:repo for " ++ Itoa feature.Id))
      | some repo =>
        if repo = "" then
          Except.error (Outcome.error ("missing wof:repo for " ++ Itoa feature.Id))
        else
          let parent : Int :=
            match feature.IntProperty "wof:parent_id" with
            | none => -1
            | some parent => parent
          let country :=
            match feature.StringProperty "wof:country" with
            | none => "XX"
            | some country => country
          match env.Marshal (GoValue.meta
              { Name := feature.Name, Country := country, Hierarchy := feature.Hierarchy }) with
          | Except.error err => Except.error (Outcome.error err)
          | Except.ok str_meta =>
            let st_geojson :=
              if client.Verbose then
                if client.Geometry = "" then "ST_GeomFromGeoJSON('...')"
                else "ST_GeomFromGeoJSON('" ++ str_geom ++ "')"
              else "ST_GeomFromGeoJSON('" ++ str_geom ++ "')"
            let is_superseded : Int := if feature.Superseded then 1 else 0
            let is_deprecated : Int := if feature.Deprecated then 1 else 0
            Except.ok
              { sql := { valuesGeom := st_geojson, setGeom := st_geojson },
                args := [SqlArg.int feature.Id, SqlArg.int parent, SqlArg.int pt.Id,
                  SqlArg.int is_superseded, SqlArg.int is_deprecated, SqlArg.str str_meta,
                  SqlArg.int parent, SqlArg.int pt.Id, SqlArg.int is_superseded,
                  SqlArg.int is_deprecated, SqlArg.str str_meta] }

/-- The body of `if !client.Debug`: `dbconn`, the deferred release, `Exec`. -/
def runStatement (client : PgisClient) (env : Env) (s : State) (st : Statement) :
    Outcome × State :=
  match dbconn client s.conns with
  | none => (Outcome.blocked, s)
  | some (conns, some err) => (Outcome.error err, { s with conns := conns })
  | some (conns, none) =>
    let s := { s with conns := conns }
    let (err, s) := Exec env s st
    match err with
    | some err => deferred (Outcome.error err) s
    | none => deferred Outcome.ok s

/-- The row described by the `VALUES` list of a statement: `$1` to `$6` and
the geometry expression. -/
def Statement.valuesRow (st : Statement) : Option Row :=
  match st.args with
  | SqlArg.int id :: SqlArg.int p :: SqlArg.int pt :: SqlArg.int sup :: SqlArg.int dep
      :: SqlArg.str m :: _ => some ⟨id, p, pt, sup, dep, m, st.sql.valuesGeom⟩
  | _ => none

/-- The rows of the table with a given id. -/
def rowsOf (s : State) (id : Int) : List Row :=
  s.rows.filter fun r => decide (r.id = id)

/-- Whether a decoded value is a number, that is, whether `x.(float64)` succeeds. -/
def JSON.isNumber : JSON → Bool
  | JSON.num _ => true
  | _ => false

/-! ## Sample inputs -/

/-- The bit pattern of the `float64` 0.0. -/
def f0 : Float64 := ⟨0, by decide⟩

/-- The bit pattern of the `float64` 1.0. -/
def f1 : Float64 := ⟨4607182418800017408, by decide⟩

/-- The bit pattern of the `float64` 10.0. -/
def f10 : Float64 := ⟨4621819117588971520, by decide⟩

/-- The bit pattern of the `float64` 20.0. -/
def f20 : Float64 := ⟨4626322717216342016, by decide⟩

/-- The bit pattern of the `float64` 101.0. -/
def f101 : Float64 := ⟨4636807660098813952, by decide⟩

/-- The bit pattern of the `float64` 85688637.0. -/
def f85688637 : Float64 := ⟨4725522876571058176, by decide⟩

/-- A stand-in for the number text of `encoding/json` in the examples: the
text of Go on the six sample values, the bit pattern elsewhere. -/
def sampleFormatFloat (x : Float64) : String :=
  if x = f0 then "0"
  else if x = f1 then "1"
  else if x = f10 then "10"
  else if x = f20 then "20"
  else if x = f101 then "101"
  else if x = f85688637 then "85688637"
  else "bits:" ++ toString x.bits

mutual
/-- A stand-in for the encoder of `encoding/json` on decoded documents: members
in the order of the list and strings without escapes. -/
def renderJSON : JSON → String
  | JSON.null => "null"
  | JSON.bool b => toString b
  | JSON.num x => sampleFormatFloat x
  | JSON.str s => "\"" ++ s ++ "\""
  | JSON.arr xs => "[" ++ renderItems xs ++ "]"
  | JSON.obj kvs => "\x7b" ++ renderFields kvs ++ "\x7d"
/-- The elements of an array, separated by commas. -/
def renderItems : List JSON → String
  | [] => ""
  | x :: xs => (if xs.isEmpty then renderJSON x else renderJSON x ++ ",") ++ renderItems xs
/-- The members of an object, separated by commas. -/
def renderFields : List (String × JSON) → String
  | [] => ""
  | (k, v) :: kvs =>
    "\"" ++ k ++ "\":" ++ (if kvs.isEmpty then renderJSON v else renderJSON v ++ ",")
      ++ renderFields kvs
end

/-- A call during which the session opens and the store answers, with
stand-ins for the texts of `encoding/json` that the embedding leaves open. -/
def sampleEnv : Env :=
  { formatFloat := sampleFormatFloat,
    escapeString := fun str => "\"" ++ str ++ "\"",
    MarshalMeta := fun m =>
      Except.ok ("wof:name=" ++ m.Name ++ ";wof:country=" ++ m.Country ++ ";wof:hierarchy="
        ++ toString m.Hierarchy),
    MarshalJSON := fun j => Except.ok (renderJSON j),
    execErr := none }

/-- Three entries of the placetype vocabulary. -/
def samplePlacetypes (name : String) : Except String WOFPlacetype :=
  if name = "country" then Except.ok ⟨102312307⟩
  else if name = "region" then Except.ok ⟨102312311⟩
  else if name = "locality" then Except.ok ⟨102312317⟩
  else Except.error "Invalid placetype"

/-- A construction during which the vocabulary loads and the store answers the ping. -/
def sampleNewEnv : NewEnv := { placetypesInit := Except.ok samplePlacetypes, ping := none }

/-- A client as `NewPgisClient` builds it. -/
def sampleClient : PgisClient :=
  { Geometry := "", Placetypes := samplePlacetypes, Debug := false, Verbose := false,
    dsn := "host=localhost port=5432 user=wof password=wof dbname=wof sslmode=disable" }

/-- A pool of four tokens and an empty table. -/
def sampleState : State := { conns := ⟨4, 4⟩, rows := [], issued := [] }

/-- The geometry member of the sample document. -/
def sampleGeometry : JSON :=
  JSON.obj [("type", JSON.str "Point"), ("coordinates", JSON.arr [JSON.num f20, JSON.num f10])]

/-- A decoded feature document with bbox (0, 0, 1, 1) and geom:latitude 10,
geom:longitude 20, without label coordinates. -/
def sampleBody : JSON :=
  JSON.obj [
    ("id", JSON.num f101),
    ("type", JSON.str "Feature"),
    ("properties", JSON.obj [
      ("wof:id", JSON.num f101),
      ("wof:name", JSON.str "Sample"),
      ("wof:parent_id", JSON.num f85688637),
      ("wof:placetype", JSON.str "locality"),
      ("wof:repo", JSON.str "whosonfirst-data"),
      ("wof:country", JSON.str "US"),
      ("geom:latitude", JSON.num f10),
      ("geom:longitude", JSON.num f20)]),
    ("bbox", JSON.arr [JSON.num f0, JSON.num f0, JSON.num f1, JSON.num f1]),
    ("geometry", sampleGeometry)]

/-- The feature of `sampleBody`, id 101. -/
def sampleFeature : WOFFeature :=
  { Id := 101,
    Body := sampleBody,
    Placetype := "locality",
    StringProperty := fun key =>
      if key = "wof:repo" then some "whosonfirst-data"
      else if key = "wof:country" then some "US"
      else if key = "wof:name" then some "Sample"
      else if key = "wof:placetype" then some "locality"
      else none,
    IntProperty := fun key =>
      if key = "wof:id" then some 101
      else if key = "wof:parent_id" then some 85688637
      else none,
    Deprecated := false,
    Superseded := false,
    Name := "Sample",
    Hierarchy := [[("country_id", 85633793), ("locality_id", 101)]] }

/-- The root feature, id 0, with a bare document. -/
def earth : WOFFeature :=
  { Id := 0,
    Body := JSON.obj [("type", JSON.str "Feature"),
      ("properties", JSON.obj [("wof:name", JSON.str "Earth")])],
    Placetype := "planet",
    StringProperty := fun key => if key = "wof:name" then some "Earth" else none,
    IntProperty := fun _ => none,
    Deprecated := false,
    Superseded := false,
    Name := "Earth",
    Hierarchy := [] }

/-- The sample feature without a `wof:repo` property. -/
def noRepo : WOFFeature :=
  { sampleFeature with
    StringProperty := fun key => if key = "wof:country" then some "US" else none }

/-- The sample feature with an empty `wof:repo` property. -/
def emptyRepo : WOFFeature :=
  { sampleFeature with
    StringProperty := fun key =>
      if key = "wof:repo" then some "" else if key = "wof:country" then some "US" else none }

/-- A decoded feature document without a bbox member. -/
def bodyWithoutBbox : JSON :=
  JSON.obj [
    ("id", JSON.num f101),
    ("type", JSON.str "Feature"),
    ("properties", JSON.obj [("wof:id", JSON.num f101)]),
    ("geometry", sampleGeometry)]

/-- A decoded feature document whose bbox has three entries. -/
def bodyShortBbox : JSON :=
  JSON.obj [
    ("type", JSON.str "Feature"),
    ("bbox", JSON.arr [JSON.num f0, JSON.num f0, JSON.num f1]),
    ("geometry", sampleGeometry)]

/-- A decoded feature document whose bbox has a string among its entries. -/
def bodyTextBbox : JSON :=
  JSON.obj [
    ("type", JSON.str "Feature"),
    ("bbox", JSON.arr [JSON.num f0, JSON.str "0", JSON.num f1, JSON.num f1]),
    ("geometry", sampleGeometry)]

/-- A client in bbox mode. -/
def bboxClient : PgisClient := { sampleClient with Geometry := "bbox" }

/-- A client in centroid mode. -/
def centroidClient : PgisClient := { sampleClient with Geometry := "centroid" }

/-- A batch run on a machine with four processors where one file exists. -/
def sampleSys : Sys :=
  { UnmarshalFile := fun path =>
      if path = "/data/101/101.geojson" then Except.ok sampleFeature
      else Except.error "open: no such file or directory",
    env := fun _ => sampleEnv,
    Join := fun root rel => root ++ "/" ++ rel,
    GOMAXPROCS := 4 }

/-- The sample client with `Verbose` set, in the default geometry mode. -/
def verboseClient : PgisClient := { sampleClient with Verbose := true }

/-- A pool of four tokens and a table that already holds a row for the id 101. -/
def staleState : State :=
  { conns := ⟨4, 4⟩,
    rows := [
      ⟨85633793, 102191575, 102312307, 0, 0, "wof:name=United States", "ST_GeomFromGeoJSON('')"⟩,
      ⟨101, -1, 102312317, 0, 1, "wof:name=Old", "ST_GeomFromGeoJSON('')"⟩],
    issued := [] }

/-- The state after the sample feature is indexed once on `staleState`. -/
def onceState : State :=
  (IndexFeature sampleClient sampleEnv staleState sampleFeature "whosonfirst").2

/-- A call during which the store rejects the statement. -/
def rejectingEnv : Env :=
  { sampleEnv with execErr := some (ExecFailure.store "pq: parse error - invalid geometry") }

/-! ## The root feature -/

/-- C1. A feature whose `Id()` is 0 is skipped: for every client, every
outcome of the outside world and every state, `IndexFeature` returns `nil`
and leaves the state as it was, so no token leaves `client.conns` and no
statement reaches the store. -/
theorem IndexFeature_root_skipped (client : PgisClient) (env : Env) (s : State)
    (feature : WOFFeature) (collection : String) (hroot : feature.Id = 0) :
    IndexFeature client env s feature collection = (Outcome.ok, s) := by
  unfold IndexFeature
  simp [hroot]

/-- The root skip at the feature `earth`, for a client in an unknown geometry mode
with `Debug` off and `Verbose` on. -/
theorem IndexFeature_root_skipped_witness :
    earth.Id = 0 ∧
    IndexFeature { sampleClient with Geometry := "geohash", Verbose := true } sampleEnv
      sampleState earth "whosonfirst" = (Outcome.ok, sampleState) :=
  ⟨rfl, IndexFeature_root_skipped _ _ _ _ _ rfl⟩

/-! ## `IndexFeature` as derive-then-run -/

theorem IndexFeature_eq (client : PgisClient) (env : Env) (s : State) (feature : WOFFeature)
    (collection : String) :
    IndexFeature client env s feature collection =
      if feature.Id = 0 then (Outcome.ok, s)
      else
        match statementOf client env feature with
        | Except.error o => (o, s)
        | Except.ok st => if client.Debug = true then (Outcome.ok, s) else runStatement client env s st := by
  unfold IndexFeature statementOf runStatement
  by_cases hid : feature.Id = 0
  · simp [hid]
  · simp only [hid, if_false]
    cases hg : strGeom client env feature.Body with
    | error o => rfl
    | ok str_geom =>
      cases hp : client.Placetypes feature.Placetype with
      | error err => rfl
      | ok pt =>
        cases hr : feature.StringProperty "wof:repo" with
        | none => rfl
        | some repo =>
          by_cases hrepo : repo = ""
          · simp [hrepo]
          · simp only [hrepo, if_false]
            split
            · rfl
            · cases hD : client.Debug
              · simp only [Bool.not_false, if_true, Bool.false_eq_true, if_false]
              · simp

/-! ## The shape of the derived statement -/

theorem Chan.recv_send (c c₁ c₂ : Chan) (h₁ : c.recv = some c₁) (h₂ : c₁.send = some c₂) :
    c₂ = c := by
  unfold Chan.recv at h₁
  unfold Chan.send at h₂
  split at h₁
  · cases h₁
  · cases h₁
    split at h₂
    · cases h₂
      cases c
      simp only [Chan.mk.injEq, true_and]
      simp only at *
      omega
    · cases h₂

theorem marshal_error_ne_ok (env : Env) (v : GoValue) :
    marshal env v ≠ Except.error Outcome.ok := by
  unfold marshal
  split <;> simp

theorem childFloat64_error_ne_ok (children : List JSON) (i : Nat) :
    childFloat64 children i ≠ Except.error Outcome.ok := by
  unfold childFloat64
  split
  · simp
  · split <;> simp

theorem strGeom_error_ne_ok (client : PgisClient) (env : Env) (body : JSON) :
    strGeom client env body ≠ Except.error Outcome.ok := by
  unfold strGeom
  intro h
  split at h
  · cases h
  · split at h
    · dsimp only at h
      split at h
      · rename_i o h0
        cases h
        exact childFloat64_error_ne_ok _ _ h0
      · split at h
        · rename_i o h0
          cases h
          exact childFloat64_error_ne_ok _ _ h0
        · split at h
          · rename_i o h0
            cases h
            exact childFloat64_error_ne_ok _ _ h0
          · split at h
            · rename_i o h0
              cases h
              exact childFloat64_error_ne_ok _ _ h0
            · exact marshal_error_ne_ok _ _ h
    · split at h
      · dsimp only at h
        repeat' split at h
        all_goals cases h
      · cases h

theorem statementOf_error_ne_ok (client : PgisClient) (env : Env) (feature : WOFFeature) :
    statementOf client env feature ≠ Except.error Outcome.ok := by
  unfold statementOf
  intro h
  split at h
  · rename_i o hg
    cases h
    exact strGeom_error_ne_ok _ _ _ hg
  · split at h
    · cases h
    · split at h
      · cases h
      · split at h
        · cases h
        · dsimp only at h
          split at h
          · cases h
          · cases h

theorem statementOf_shape (client : PgisClient) (env : Env) (feature : WOFFeature)
    (st : Statement) (h : statementOf client env feature = Except.ok st) :
    ∃ (p pt sup dep : Int) (m g : String),
      st = { sql := { valuesGeom := g, setGeom := g },
             args := [SqlArg.int feature.Id, SqlArg.int p, SqlArg.int pt, SqlArg.int sup,
               SqlArg.int dep, SqlArg.str m, SqlArg.int p, SqlArg.int pt, SqlArg.int sup,
               SqlArg.int dep, SqlArg.str m] } := by
  unfold statementOf at h
  split at h
  · cases h
  · split at h
    · cases h
    · split at h
      · cases h
      · split at h
        · cases h
        · dsimp only at h
          split at h
          · cases h
          · cases h
            exact ⟨_, _, _, _, _, _, rfl⟩

theorem statementOf_congr (client : PgisClient) (env₁ env₂ : Env) (feature : WOFFeature)
    (h : env₂.Marshal = env₁.Marshal) :
    statementOf client env₂ feature = statementOf client env₁ feature := by
  unfold statementOf strGeom containerString marshal
  simp only [h]

/-- The statement built for a feature carries the derived values, and the
derived geometry unless `Verbose` is set in the default mode. -/
theorem statementOf_derived (client : PgisClient) (env : Env) (feature : WOFFeature)
    (st : Statement) (h : statementOf client env feature = Except.ok st) :
    ∃ (str_geom : String) (pt : WOFPlacetype) (str_meta : String),
      strGeom client env feature.Body = Except.ok str_geom
      ∧ client.Placetypes feature.Placetype = Except.ok pt
      ∧ env.Marshal (GoValue.meta
          { Name := feature.Name,
            Country := (feature.StringProperty "wof:country").getD "XX",
            Hierarchy := feature.Hierarchy }) = Except.ok str_meta
      ∧ st.valuesRow = some
          { id := feature.Id,
            parent_id := (feature.IntProperty "wof:parent_id").getD (-1),
            placetype_id := pt.Id,
            is_superseded := if feature.Superseded then 1 else 0,
            is_deprecated := if feature.Deprecated then 1 else 0,
            meta := str_meta,
            geom := st.sql.valuesGeom }
      ∧ (client.Verbose = false ∨ client.Geometry ≠ "" →
          st.sql.valuesGeom = "ST_GeomFromGeoJSON('" ++ str_geom ++ "')")
      ∧ (client.Verbose = true ∧ client.Geometry = "" →
          st.sql.valuesGeom = "ST_GeomFromGeoJSON('...')") := by
  unfold statementOf at h
  split at h
  · cases h
  · rename_i str_geom hg
    split at h
    · cases h
    · rename_i pt hp
      split at h
      · cases h
      · split at h
        · cases h
        · dsimp only at h
          split at h
          · cases h
          · rename_i str_meta hm
            cases h
            refine ⟨str_geom, pt, str_meta, hg, hp, ?_, ?_, ?_, ?_⟩
            · rw [← hm]
              cases feature.StringProperty "wof:country" <;> rfl
            · cases feature.IntProperty "wof:parent_id" <;> rfl
            · rintro (hv | hg')
              · simp [hv]
              · simp [hg']
            · rintro ⟨hv, hg'⟩
              simp [hv, hg']

/-! ## The text of the geometry payloads -/

theorem encodeString_Polygon (env : Env) : encodeString env "Polygon" = "\"Polygon\"" := by
  unfold encodeString
  rw [if_pos (by decide)]
  decide

theorem encodeString_Point (env : Env) : encodeString env "Point" = "\"Point\"" := by
  unfold encodeString
  rw [if_pos (by decide)]
  decide

theorem encodeGeometryPoly_ring (env : Env) (a b c d : Float64) :
    encodeGeometryPoly env (bboxPoly a b c d)
      = "\x7b\"type\":\"Polygon\",\"coordinates\":[[["
          ++ env.formatFloat a ++ "," ++ env.formatFloat b ++ "],["
          ++ env.formatFloat a ++ "," ++ env.formatFloat d ++ "],["
          ++ env.formatFloat c ++ "," ++ env.formatFloat d ++ "],["
          ++ env.formatFloat c ++ "," ++ env.formatFloat b ++ "],["
          ++ env.formatFloat a ++ "," ++ env.formatFloat b ++ "]]]\x7d" := by
  have e1 : ("\x7b\"type\":\"Polygon\",\"coordinates\":[[[" : String)
      = "\x7b\"type\":" ++ "\"Polygon\"" ++ ",\"coordinates\":" ++ "[" ++ "[" ++ "[" := by decide
  have e2 : ("],[" : String) = "]" ++ "," ++ "[" := by decide
  have e3 : ("]]]\x7d" : String) = "]" ++ "]" ++ "]" ++ "\x7d" := by decide
  rw [e1, e2, e3]
  simp only [encodeGeometryPoly, bboxPoly, encodeString_Polygon, encodePolygon, encodeCoords,
    joinComma, List.map, String.append_assoc]

theorem encodeGeometry_point (env : Env) (lon lat : Float64) :
    encodeGeometry env { Type_ := "Point", Coordinates := [lon, lat] }
      = "\x7b\"type\":\"Point\",\"coordinates\":["
          ++ env.formatFloat lon ++ "," ++ env.formatFloat lat ++ "]\x7d" := by
  have e1 : ("\x7b\"type\":\"Point\",\"coordinates\":[" : String)
      = "\x7b\"type\":" ++ "\"Point\"" ++ ",\"coordinates\":" ++ "[" := by decide
  have e3 : ("]\x7d" : String) = "]" ++ "\x7d" := by decide
  rw [e1, e3]
  simp only [encodeGeometry, encodeString_Point, encodeCoords, joinComma, List.map,
    String.append_assoc]

theorem marshal_geometry (env : Env) (g : Geometry) :
    marshal env (GoValue.geometry g) = Except.ok (encodeGeometry env g) := rfl

theorem marshal_geometryPoly (env : Env) (g : GeometryPoly) :
    marshal env (GoValue.geometryPoly g) = Except.ok (encodeGeometryPoly env g) := rfl

/-! ## Geometry modes -/

theorem strGeom_unknown_mode (client : PgisClient) (env : Env) (body : JSON)
    (h1 : client.Geometry ≠ "") (h2 : client.Geometry ≠ "bbox")
    (h3 : client.Geometry ≠ "centroid") :
    strGeom client env body = Except.error (Outcome.error "unknown geometry filter") := by
  unfold strGeom
  simp [h1, h2, h3]

/-- C5, as amended. For a non-root feature and a client whose `Geometry` is
none of the three modes, `IndexFeature` fails with the unknown-mode error and
leaves the state as it was: no token is taken and no statement is sent. -/
theorem IndexFeature_unknown_geometry (client : PgisClient) (env : Env) (s : State)
    (feature : WOFFeature) (collection : String) (hid : feature.Id ≠ 0)
    (h1 : client.Geometry ≠ "") (h2 : client.Geometry ≠ "bbox")
    (h3 : client.Geometry ≠ "centroid") :
    IndexFeature client env s feature collection
      = (Outcome.error "unknown geometry filter", s) := by
  rw [IndexFeature_eq]
  simp [hid, statementOf, strGeom_unknown_mode client env _ h1 h2 h3]

/-- The unknown-mode error at the sample feature, for the mode `geohash`. -/
theorem IndexFeature_unknown_geometry_witness :
    sampleFeature.Id ≠ 0 ∧
    IndexFeature { sampleClient with Geometry := "geohash" } sampleEnv sampleState
      sampleFeature "whosonfirst" = (Outcome.error "unknown geometry filter", sampleState) :=
  ⟨by decide,
   IndexFeature_unknown_geometry _ _ _ _ _ (by decide) (by decide) (by decide) (by decide)⟩

/-- C5 as stated fails at the root feature: with the unsupported mode
`envelope`, `IndexFeature` on `earth` returns `nil`, not the unknown-mode error. -/
theorem unknown_geometry_root_returns_nil :
    earth.Id = 0 ∧
    ({ sampleClient with Geometry := "envelope" } : PgisClient).Geometry ∉ ["", "bbox", "centroid"] ∧
    IndexFeature { sampleClient with Geometry := "envelope" } sampleEnv sampleState earth
      "whosonfirst" = (Outcome.ok, sampleState) := by
  decide

/-! ## The `wof:repo` check -/

/-- C6, as amended. For a non-root feature whose geometry is derived and whose
placetype resolves, a missing or empty `wof:repo` makes `IndexFeature` fail
with a message that ends in the decimal form of the feature's id, and the
state stays as it was: no statement is sent and no token is taken. -/
theorem IndexFeature_repo_missing (client : PgisClient) (env : Env) (s : State)
    (feature : WOFFeature) (collection : String) (str_geom : String) (pt : WOFPlacetype)
    (hid : feature.Id ≠ 0)
    (hgeom : strGeom client env feature.Body = Except.ok str_geom)
    (hpt : client.Placetypes feature.Placetype = Except.ok pt)
    (hrepo : feature.StringProperty "wof:repo" = none
      ∨ feature.StringProperty "wof:repo" = some "") :
    ∃ msg : String,
      IndexFeature client env s feature collection = (Outcome.error msg, s)
      ∧ (Itoa feature.Id).data <:+: msg.data
      ∧ (feature.StringProperty "wof:repo" = none →
          msg = "can't find wof:repo for " ++ Itoa feature.Id)
      ∧ (feature.StringProperty "wof:repo" = some "" →
          msg = "missing wof:repo for " ++ Itoa feature.Id) := by
  rcases hrepo with h | h
  · refine ⟨"can't find wof:repo for " ++ Itoa feature.Id, ?_, ?_, fun _ => rfl, ?_⟩
    · rw [IndexFeature_eq]
      simp [hid, statementOf, hgeom, hpt, h]
    · exact ⟨"can't find wof:repo for ".data, [], by simp⟩
    · intro h'
      rw [h] at h'
      cases h'
  · refine ⟨"missing wof:repo for " ++ Itoa feature.Id, ?_, ?_, ?_, fun _ => rfl⟩
    · rw [IndexFeature_eq]
      simp [hid, statementOf, hgeom, hpt, h]
    · exact ⟨"missing wof:repo for ".data, [], by simp⟩
    · intro h'
      rw [h] at h'
      cases h'

/-- The `wof:repo` check at the sample feature without the property and at
the one with an empty property: both messages end in the id 101. -/
theorem IndexFeature_repo_missing_witness :
    noRepo.Id ≠ 0 ∧ Itoa noRepo.Id = "101"
    ∧ noRepo.StringProperty "wof:repo" = none
    ∧ emptyRepo.StringProperty "wof:repo" = some ""
    ∧ (∃ msg : String,
        IndexFeature sampleClient sampleEnv sampleState noRepo "whosonfirst"
          = (Outcome.error msg, sampleState)
        ∧ (Itoa noRepo.Id).data <:+: msg.data
        ∧ (noRepo.StringProperty "wof:repo" = none →
            msg = "can't find wof:repo for " ++ Itoa noRepo.Id)
        ∧ (noRepo.StringProperty "wof:repo" = some "" →
            msg = "missing wof:repo for " ++ Itoa noRepo.Id))
    ∧ (∃ msg : String,
        IndexFeature sampleClient sampleEnv sampleState emptyRepo "whosonfirst"
          = (Outcome.error msg, sampleState)
        ∧ (Itoa emptyRepo.Id).data <:+: msg.data
        ∧ (emptyRepo.StringProperty "wof:repo" = none →
            msg = "can't find wof:repo for " ++ Itoa emptyRepo.Id)
        ∧ (emptyRepo.StringProperty "wof:repo" = some "" →
            msg = "missing wof:repo for " ++ Itoa emptyRepo.Id)) :=
  ⟨by decide, by decide, rfl, rfl,
   IndexFeature_repo_missing sampleClient sampleEnv sampleState noRepo "whosonfirst"
     (containerString sampleEnv (sampleBody.Path "geometry")) ⟨102312317⟩
     (by decide) rfl rfl (Or.inl rfl),
   IndexFeature_repo_missing sampleClient sampleEnv sampleState emptyRepo "whosonfirst"
     (containerString sampleEnv (sampleBody.Path "geometry")) ⟨102312317⟩
     (by decide) rfl rfl (Or.inr rfl)⟩

/-- C6 as stated fails where an earlier step ends the call: the root feature
without `wof:repo` is skipped with `nil`; under an unsupported mode, under
centroid mode without coordinates, and under an unknown placetype the call
fails with another error, whose message does not hold the id 101. -/
theorem repo_missing_other_outcomes :
    (earth.StringProperty "wof:repo" = none ∧
      IndexFeature sampleClient sampleEnv sampleState earth "whosonfirst"
        = (Outcome.ok, sampleState))
    ∧ (noRepo.StringProperty "wof:repo" = none ∧
      IndexFeature { sampleClient with Geometry := "geohash" } sampleEnv sampleState noRepo
        "whosonfirst" = (Outcome.error "unknown geometry filter", sampleState)
      ∧ ¬ ((Itoa noRepo.Id).data <:+: "unknown geometry filter".data))
    ∧ (IndexFeature centroidClient sampleEnv sampleState { noRepo with Body := bodyWithoutBbox }
        "whosonfirst" = (Outcome.error "can't find centroid", sampleState)
      ∧ ¬ ((Itoa noRepo.Id).data <:+: "can't find centroid".data))
    ∧ (IndexFeature sampleClient sampleEnv sampleState { noRepo with Placetype := "no-such-placetype" }
        "whosonfirst" = (Outcome.error "Invalid placetype", sampleState)
      ∧ ¬ ((Itoa noRepo.Id).data <:+: "Invalid placetype".data)) := by
  decide

/-! ## Bbox mode -/

/-- C7. In bbox mode, when the bbox member holds the four numbers swlon, swlat,
nelon, nelat, the payload is the text of a GeoJSON object with `type`
`Polygon` and, as `coordinates`, one ring of five positions in the order SW,
NW, NE, SE, SW. It is the serialization of the `GeometryPoly` whose single
ring has five vertices, the first equal to the last, and the four corners as
its vertex set. -/
theorem strGeom_bbox_polygon (client : PgisClient) (env : Env) (body : JSON)
    (swlon swlat nelon nelat : Float64)
    (hmode : client.Geometry = "bbox")
    (hbbox : body.S ["bbox"]
      = some (JSON.arr [JSON.num swlon, JSON.num swlat, JSON.num nelon, JSON.num nelat])) :
    strGeom client env body = Except.ok
        ("\x7b\"type\":\"Polygon\",\"coordinates\":[[["
          ++ env.formatFloat swlon ++ "," ++ env.formatFloat swlat ++ "],["
          ++ env.formatFloat swlon ++ "," ++ env.formatFloat nelat ++ "],["
          ++ env.formatFloat nelon ++ "," ++ env.formatFloat nelat ++ "],["
          ++ env.formatFloat nelon ++ "," ++ env.formatFloat swlat ++ "],["
          ++ env.formatFloat swlon ++ "," ++ env.formatFloat swlat ++ "]]]\x7d")
    ∧ ∃ ring : Polygon,
      strGeom client env body
        = Except.ok (encodeGeometryPoly env { Type_ := "Polygon", Coordinates := [ring] })
      ∧ ring = [[swlon, swlat], [swlon, nelat], [nelon, nelat], [nelon, swlat], [swlon, swlat]]
      ∧ ring.length = 5
      ∧ ring.head? = ring.getLast?
      ∧ ∀ v : Coords, v ∈ ring ↔
          v = [swlon, swlat] ∨ v = [swlon, nelat] ∨ v = [nelon, nelat] ∨ v = [nelon, swlat] := by
  have hgeom : strGeom client env body
      = Except.ok (encodeGeometryPoly env (bboxPoly swlon swlat nelon nelat)) := by
    unfold strGeom
    simp [hmode, hbbox, Children, Data, childFloat64, marshal_geometryPoly]
  refine ⟨?_, [[swlon, swlat], [swlon, nelat], [nelon, nelat], [nelon, swlat], [swlon, swlat]],
    hgeom, rfl, rfl, rfl, ?_⟩
  · rw [hgeom, encodeGeometryPoly_ring]
  · intro v
    simp only [List.mem_cons, List.mem_singleton, List.not_mem_nil, or_false]
    tauto

/-- The bbox (0, 0, 1, 1) of the sample document: the payload is the Polygon
with the ring (0,0), (0,1), (1,1), (1,0), (0,0). -/
theorem strGeom_bbox_polygon_witness :
    bboxClient.Geometry = "bbox" ∧
    sampleBody.S ["bbox"] = some (JSON.arr [JSON.num f0, JSON.num f0, JSON.num f1, JSON.num f1]) ∧
    strGeom bboxClient sampleEnv sampleBody = Except.ok
      "\x7b\"type\":\"Polygon\",\"coordinates\":[[[0,0],[0,1],[1,1],[1,0],[0,0]]]\x7d" ∧
    ∃ ring : Polygon,
      strGeom bboxClient sampleEnv sampleBody
        = Except.ok (encodeGeometryPoly sampleEnv { Type_ := "Polygon", Coordinates := [ring] })
      ∧ ring = [[f0, f0], [f0, f1], [f1, f1], [f1, f0], [f0, f0]]
      ∧ ring.length = 5
      ∧ ring.head? = ring.getLast?
      ∧ ∀ v : Coords, v ∈ ring ↔
          v = [f0, f0] ∨ v = [f0, f1] ∨ v = [f1, f1] ∨ v = [f1, f0] :=
  ⟨rfl, rfl, strGeom_bbox_polygon bboxClient sampleEnv sampleBody f0 f0 f1 f1 rfl rfl⟩

/-- C10, the code at the failing inputs. In bbox mode `IndexFeature` panics
instead of returning an error when the bbox member is missing, when it has
fewer than four entries, and when an entry is not a number. -/
theorem IndexFeature_bbox_panics :
    IndexFeature bboxClient sampleEnv sampleState { sampleFeature with Body := bodyWithoutBbox }
        "whosonfirst"
      = (Outcome.panic "runtime error: index out of range", sampleState)
    ∧ IndexFeature bboxClient sampleEnv sampleState { sampleFeature with Body := bodyShortBbox }
        "whosonfirst"
      = (Outcome.panic "runtime error: index out of range", sampleState)
    ∧ IndexFeature bboxClient sampleEnv sampleState { sampleFeature with Body := bodyTextBbox }
        "whosonfirst"
      = (Outcome.panic "interface conversion: interface is not float64", sampleState) := by
  decide

/-! ## Centroid mode -/

theorem assertFloat64_cases (j : JSON) :
    (∃ x, assertFloat64 j = (x, true) ∧ j = JSON.num x ∧ j.isNumber = true)
      ∨ (assertFloat64 j = (Float64.zero, false) ∧ j.isNumber = false) := by
  cases j <;> simp [assertFloat64, JSON.isNumber]

theorem strGeom_centroid_label (client : PgisClient) (env : Env) (body : JSON)
    (lat lon : Float64) (hmode : client.Geometry = "centroid")
    (hlat : Data (body.Path "properties.lbl:latitude") = JSON.num lat)
    (hlon : Data (body.Path "properties.lbl:longitude") = JSON.num lon) :
    strGeom client env body
      = Except.ok (encodeGeometry env { Type_ := "Point", Coordinates := [lon, lat] }) := by
  unfold strGeom
  simp [hmode, hlat, hlon, assertFloat64, marshal_geometry]

theorem strGeom_centroid_geom (client : PgisClient) (env : Env) (body : JSON)
    (lat lon : Float64) (hmode : client.Geometry = "centroid")
    (hlbl : ¬ ((Data (body.Path "properties.lbl:latitude")).isNumber = true
      ∧ (Data (body.Path "properties.lbl:longitude")).isNumber = true))
    (hlat : Data (body.Path "properties.geom:latitude") = JSON.num lat)
    (hlon : Data (body.Path "properties.geom:longitude") = JSON.num lon) :
    strGeom client env body
      = Except.ok (encodeGeometry env { Type_ := "Point", Coordinates := [lon, lat] }) := by
  unfold strGeom
  rcases assertFloat64_cases (Data (body.Path "properties.lbl:latitude")) with
    ⟨x1, e1, -, n1⟩ | ⟨e1, n1⟩ <;>
  rcases assertFloat64_cases (Data (body.Path "properties.lbl:longitude")) with
    ⟨x2, e2, -, n2⟩ | ⟨e2, n2⟩ <;>
  simp_all [assertFloat64, marshal_geometry]

theorem strGeom_centroid_none (client : PgisClient) (env : Env) (body : JSON)
    (hmode : client.Geometry = "centroid")
    (hlbl : ¬ ((Data (body.Path "properties.lbl:latitude")).isNumber = true
      ∧ (Data (body.Path "properties.lbl:longitude")).isNumber = true))
    (hgeom : ¬ ((Data (body.Path "properties.geom:latitude")).isNumber = true
      ∧ (Data (body.Path "properties.geom:longitude")).isNumber = true)) :
    strGeom client env body = Except.error (Outcome.error "can't find centroid") := by
  unfold strGeom
  rcases assertFloat64_cases (Data (body.Path "properties.lbl:latitude")) with
    ⟨x1, e1, -, n1⟩ | ⟨e1, n1⟩ <;>
  rcases assertFloat64_cases (Data (body.Path "properties.lbl:longitude")) with
    ⟨x2, e2, -, n2⟩ | ⟨e2, n2⟩ <;>
  rcases assertFloat64_cases (Data (body.Path "properties.geom:latitude")) with
    ⟨x3, e3, -, n3⟩ | ⟨e3, n3⟩ <;>
  rcases assertFloat64_cases (Data (body.Path "properties.geom:longitude")) with
    ⟨x4, e4, -, n4⟩ | ⟨e4, n4⟩ <;>
  simp_all

/-- C8, as amended. In centroid mode, for a non-root feature: when
`lbl:latitude` and `lbl:longitude` are both numbers the payload is the text
of the GeoJSON Point with coordinates `[lbl:longitude, lbl:latitude]`; when
they are not both numbers and `geom:latitude`, `geom:longitude` both are, it
is the Point `[geom:longitude, geom:latitude]`, with no label value in it;
when neither pair is complete `IndexFeature` fails with the centroid error
and leaves the state as it was. -/
theorem IndexFeature_centroid (client : PgisClient) (env : Env) (s : State)
    (feature : WOFFeature) (collection : String)
    (hmode : client.Geometry = "centroid") (hid : feature.Id ≠ 0) :
    (∀ lat lon : Float64,
        Data (feature.Body.Path "properties.lbl:latitude") = JSON.num lat →
        Data (feature.Body.Path "properties.lbl:longitude") = JSON.num lon →
        strGeom client env feature.Body = Except.ok
          ("\x7b\"type\":\"Point\",\"coordinates\":["
            ++ env.formatFloat lon ++ "," ++ env.formatFloat lat ++ "]\x7d"))
    ∧ (¬ ((Data (feature.Body.Path "properties.lbl:latitude")).isNumber = true
          ∧ (Data (feature.Body.Path "properties.lbl:longitude")).isNumber = true) →
        ∀ lat lon : Float64,
        Data (feature.Body.Path "properties.geom:latitude") = JSON.num lat →
        Data (feature.Body.Path "properties.geom:longitude") = JSON.num lon →
        strGeom client env feature.Body = Except.ok
          ("\x7b\"type\":\"Point\",\"coordinates\":["
            ++ env.formatFloat lon ++ "," ++ env.formatFloat lat ++ "]\x7d"))
    ∧ (¬ ((Data (feature.Body.Path "properties.lbl:latitude")).isNumber = true
          ∧ (Data (feature.Body.Path "properties.lbl:longitude")).isNumber = true) →
        ¬ ((Data (feature.Body.Path "properties.geom:latitude")).isNumber = true
          ∧ (Data (feature.Body.Path "properties.geom:longitude")).isNumber = true) →
        IndexFeature client env s feature collection
          = (Outcome.error "can't find centroid", s)) := by
  refine ⟨fun lat lon h1 h2 => ?_, fun hl lat lon h1 h2 => ?_, fun hl hg => ?_⟩
  · rw [strGeom_centroid_label client env _ lat lon hmode h1 h2, encodeGeometry_point]
  · rw [strGeom_centroid_geom client env _ lat lon hmode hl h1 h2, encodeGeometry_point]
  · rw [IndexFeature_eq]
    simp [hid, statementOf, strGeom_centroid_none client env _ hmode hl hg]

/-- The sample feature in centroid mode: geom:latitude 10 and geom:longitude 20
without label coordinates give the Point (20, 10). -/
theorem IndexFeature_centroid_witness :
    centroidClient.Geometry = "centroid" ∧ sampleFeature.Id ≠ 0 ∧
    strGeom centroidClient sampleEnv sampleFeature.Body
      = Except.ok "\x7b\"type\":\"Point\",\"coordinates\":[20,10]\x7d" :=
  ⟨rfl, by decide,
   (IndexFeature_centroid centroidClient sampleEnv sampleState sampleFeature "whosonfirst"
      rfl (by decide)).2.1 (by decide) f10 f20 rfl rfl⟩

/-- C8 as stated fails at the root feature: in centroid mode, with no label
and no geom coordinates, `IndexFeature` on `earth` returns `nil` instead of
failing with the centroid error. -/
theorem centroid_root_returns_nil :
    earth.Id = 0
    ∧ (Data (earth.Body.Path "properties.lbl:latitude")).isNumber = false
    ∧ (Data (earth.Body.Path "properties.lbl:longitude")).isNumber = false
    ∧ (Data (earth.Body.Path "properties.geom:latitude")).isNumber = false
    ∧ (Data (earth.Body.Path "properties.geom:longitude")).isNumber = false
    ∧ IndexFeature centroidClient sampleEnv sampleState earth "whosonfirst"
        = (Outcome.ok, sampleState) := by
  decide

/-! ## The verbose flag and the geometry of the statement -/

/-- C2, the code at the failing input. With `Verbose` set and the default
geometry mode the statement `IndexFeature` executes for the sample feature
carries the literal `ST_GeomFromGeoJSON('...')` in both geometry positions,
and so does the stored row, while the derived payload is the feature's
geometry; with `Verbose` off the row holds the derived geometry. -/
theorem IndexFeature_verbose_clobbers_geometry :
    verboseClient.Geometry = "" ∧ verboseClient.Verbose = true ∧ verboseClient.Debug = false
    ∧ strGeom verboseClient sampleEnv sampleFeature.Body = Except.ok (renderJSON sampleGeometry)
    ∧ (IndexFeature verboseClient sampleEnv sampleState sampleFeature "whosonfirst").1
        = Outcome.ok
    ∧ (IndexFeature verboseClient sampleEnv sampleState sampleFeature "whosonfirst").2.issued.map
        (fun st => (st.sql.valuesGeom, st.sql.setGeom))
        = [("ST_GeomFromGeoJSON('...')", "ST_GeomFromGeoJSON('...')")]
    ∧ (IndexFeature verboseClient sampleEnv sampleState sampleFeature "whosonfirst").2.rows.map
        Row.geom = ["ST_GeomFromGeoJSON('...')"]
    ∧ (IndexFeature sampleClient sampleEnv sampleState sampleFeature "whosonfirst").2.rows.map
        Row.geom = ["ST_GeomFromGeoJSON('" ++ renderJSON sampleGeometry ++ "')"]
    ∧ "ST_GeomFromGeoJSON('" ++ renderJSON sampleGeometry ++ "')"
        ≠ "ST_GeomFromGeoJSON('...')" := by
  refine ⟨rfl, rfl, rfl, rfl, ?_⟩
  decide

/-! ## The upsert -/

theorem filter_replace_absent (rows : List Row) (new : Row)
    (h : ∀ r ∈ rows, r.id ≠ new.id) :
    (rows.map fun r => if r.id = new.id then new else r).filter
      (fun r => decide (r.id = new.id)) = [] := by
  induction rows with
  | nil => rfl
  | cons r rs ih =>
    have hr : r.id ≠ new.id := h r (List.mem_cons_self _ _)
    have hrs : ∀ r ∈ rs, r.id ≠ new.id := fun x hx => h x (List.mem_cons_of_mem _ hx)
    simp [hr, ih hrs]

theorem filter_replace_present (rows : List Row) (new : Row)
    (hpk : (rows.map Row.id).Nodup) (h : ∃ r ∈ rows, r.id = new.id) :
    (rows.map fun r => if r.id = new.id then new else r).filter
      (fun r => decide (r.id = new.id)) = [new] := by
  induction rows with
  | nil => simp at h
  | cons r rs ih =>
    rw [List.map_cons, List.nodup_cons] at hpk
    obtain ⟨hnot, hnd⟩ := hpk
    by_cases hr : r.id = new.id
    · have hrs : ∀ x ∈ rs, x.id ≠ new.id := by
        intro x hx hxe
        exact hnot (List.mem_map.2 ⟨x, hx, by rw [hxe, hr]⟩)
      have := filter_replace_absent rs new hrs
      simp [hr, this]
    · have hex : ∃ x ∈ rs, x.id = new.id := by
        obtain ⟨x, hx, hxe⟩ := h
        rcases List.mem_cons.1 hx with rfl | hx'
        · exact absurd hxe hr
        · exact ⟨x, hx', hxe⟩
      have := ih hnd hex
      simp [hr, this]

theorem map_id_replace (rows : List Row) (new : Row) :
    (rows.map fun r => if r.id = new.id then new else r).map Row.id = rows.map Row.id := by
  induction rows with
  | nil => rfl
  | cons r rs ih =>
    by_cases hr : r.id = new.id
    · simp [hr] at ih ⊢
      exact ih
    · simp [hr] at ih ⊢
      exact ih

/-- The table after the statement of `IndexFeature`, in terms of the row it describes. -/
theorem execUpsert_statement (rows : List Row) (id p pt sup dep : Int) (m g : String) :
    execUpsert rows
      { sql := { valuesGeom := g, setGeom := g },
        args := [SqlArg.int id, SqlArg.int p, SqlArg.int pt, SqlArg.int sup, SqlArg.int dep,
          SqlArg.str m, SqlArg.int p, SqlArg.int pt, SqlArg.int sup, SqlArg.int dep,
          SqlArg.str m] }
      = Except.ok
        (if rows.any (fun r => decide (r.id = id)) then
          rows.map fun r => if r.id = (⟨id, p, pt, sup, dep, m, g⟩ : Row).id
            then (⟨id, p, pt, sup, dep, m, g⟩ : Row) else r
         else rows ++ [⟨id, p, pt, sup, dep, m, g⟩]) := by
  unfold execUpsert
  simp only
  split
  · congr 1
    apply List.map_congr_left
    intro r _
    by_cases hr : r.id = id
    · simp [hr]
    · simp [hr]
  · rfl

theorem upsert_rows (rows : List Row) (new : Row) (hpk : (rows.map Row.id).Nodup) :
    ((if rows.any (fun r => decide (r.id = new.id)) then
        rows.map fun r => if r.id = new.id then new else r
      else rows ++ [new]).map Row.id).Nodup
    ∧ (if rows.any (fun r => decide (r.id = new.id)) then
        rows.map fun r => if r.id = new.id then new else r
      else rows ++ [new]).filter (fun r => decide (r.id = new.id)) = [new] := by
  by_cases hany : rows.any (fun r => decide (r.id = new.id)) = true
  · rw [if_pos hany]
    have hex : ∃ r ∈ rows, r.id = new.id := by
      simpa using hany
    exact ⟨by rw [map_id_replace]; exact hpk, filter_replace_present rows new hpk hex⟩
  · rw [if_neg hany]
    have hall : ∀ r ∈ rows, r.id ≠ new.id := by
      simpa using hany
    constructor
    · rw [List.map_append, List.nodup_append]
      refine ⟨hpk, by simp, ?_⟩
      intro a ha hb
      simp at hb
      obtain ⟨r, hr, rfl⟩ := List.mem_map.1 ha
      exact hall r hr hb
    · rw [List.filter_append]
      have : rows.filter (fun r => decide (r.id = new.id)) = [] := by
        rw [List.filter_eq_nil_iff]
        intro r hr
        simpa using hall r hr
      simp [this]

theorem sqlOpen_postgres (dsn : String) : sqlOpen "postgres" dsn = none := by
  simp [sqlOpen, registeredDrivers]

theorem dbconn_eq (client : PgisClient) (conns : Chan) :
    dbconn client conns = (conns.recv).map fun c => (c, none) := by
  unfold dbconn
  cases conns.recv with
  | none => rfl
  | some c => simp [sqlOpen_postgres]

theorem runStatement_ok_inv (client : PgisClient) (env : Env) (s s' : State) (st : Statement)
    (h : runStatement client env s st = (Outcome.ok, s')) :
    env.execErr = none ∧
    ∃ c rows, s.conns.recv = some c ∧ c.send = some s'.conns
      ∧ execUpsert s.rows st = Except.ok rows
      ∧ s'.rows = rows ∧ s'.issued = s.issued ++ [st] := by
  unfold runStatement at h
  rw [dbconn_eq] at h
  unfold Exec deferred at h
  cases hrecv : s.conns.recv with
  | none => simp [hrecv] at h
  | some c =>
    cases hexec : env.execErr with
    | some f =>
      cases f with
      | session err =>
        simp only [hrecv, hexec, Option.map_some'] at h
        split at h <;> simp at h
      | store err =>
        simp only [hrecv, hexec, Option.map_some'] at h
        split at h <;> simp at h
    | none =>
      cases hup : execUpsert s.rows st with
      | error err =>
        simp only [hrecv, hexec, hup, Option.map_some'] at h
        split at h <;> simp at h
      | ok rows =>
        simp only [hrecv, hexec, hup, Option.map_some'] at h
        cases hsend : c.send with
        | none => simp [hsend] at h
        | some c' =>
          simp only [hsend] at h
          cases h
          exact ⟨rfl, c, rows, rfl, hsend, rfl, rfl, rfl⟩

theorem runStatement_ok_of (client : PgisClient) (env : Env) (s : State) (st : Statement)
    (c c' : Chan) (rows : List Row) (hexec : env.execErr = none)
    (hrecv : s.conns.recv = some c) (hsend : c.send = some c')
    (hup : execUpsert s.rows st = Except.ok rows) :
    runStatement client env s st
      = (Outcome.ok, { conns := c', rows := rows, issued := s.issued ++ [st] }) := by
  unfold runStatement
  rw [dbconn_eq]
  unfold Exec deferred
  simp [hexec, hrecv, hsend, hup]

theorem IndexFeature_ok_inv (client : PgisClient) (env : Env) (s s' : State)
    (feature : WOFFeature) (collection : String)
    (hdebug : client.Debug = false) (hid : feature.Id ≠ 0)
    (h : IndexFeature client env s feature collection = (Outcome.ok, s')) :
    ∃ st, statementOf client env feature = Except.ok st
      ∧ runStatement client env s st = (Outcome.ok, s') := by
  rw [IndexFeature_eq] at h
  simp only [hid, if_false] at h
  cases hst : statementOf client env feature with
  | error o =>
    rw [hst] at h
    simp only [Prod.mk.injEq] at h
    exact absurd (hst.trans (by rw [h.1])) (statementOf_error_ne_ok client env feature)
  | ok st =>
    rw [hst] at h
    simp only [hdebug, Bool.false_eq_true, if_false] at h
    exact ⟨st, rfl, h⟩

theorem IndexFeature_ok_rows (client : PgisClient) (env : Env) (s s' : State)
    (feature : WOFFeature) (collection : String)
    (hpk : (s.rows.map Row.id).Nodup)
    (hdebug : client.Debug = false) (hid : feature.Id ≠ 0)
    (h : IndexFeature client env s feature collection = (Outcome.ok, s')) :
    ∃ (st : Statement) (row : Row),
      statementOf client env feature = Except.ok st
      ∧ s'.issued = s.issued ++ [st]
      ∧ st.valuesRow = some row ∧ row.id = feature.Id
      ∧ rowsOf s' feature.Id = [row]
      ∧ (s'.rows.map Row.id).Nodup
      ∧ s'.conns = s.conns
      ∧ st.args.drop 6 = (st.args.drop 1).take 5
      ∧ st.sql.setGeom = st.sql.valuesGeom := by
  obtain ⟨st, hst, hrun⟩ := IndexFeature_ok_inv client env s s' feature collection hdebug hid h
  obtain ⟨p, pt, sup, dep, m, g, rfl⟩ := statementOf_shape client env feature st hst
  obtain ⟨-, c, rows, hrecv, hsend, hup, hrows, hissued⟩ :=
    runStatement_ok_inv client env s s' _ hrun
  rw [execUpsert_statement] at hup
  cases hup
  obtain ⟨hnd, hfilter⟩ := upsert_rows s.rows ⟨feature.Id, p, pt, sup, dep, m, g⟩ hpk
  refine ⟨_, ⟨feature.Id, p, pt, sup, dep, m, g⟩, hst, hissued, rfl, rfl, ?_, ?_,
    Chan.recv_send _ _ _ hrecv hsend, rfl, rfl⟩
  · unfold rowsOf
    rw [hrows]
    exact hfilter
  · rw [hrows]
    exact hnd

/-- C3. Indexing a feature twice in succession. Let the table have at most
one row per id, and let a first call with `Debug` off on a non-root feature
return `nil`. Then a second call on the resulting state, during which the
session opens and the store answers, returns `nil` as well (no duplicate-key
failure); afterwards the table holds exactly one row with the feature's id,
and it is the row the `VALUES` list of the second call's statement describes.
In that statement the parameters `$7..$11` are `$2..$6` in the same order and
both geometry expressions are the same. -/
theorem IndexFeature_twice (client : PgisClient) (env₁ env₂ : Env) (s s₁ : State)
    (feature : WOFFeature) (collection : String)
    (hpk : (s.rows.map Row.id).Nodup)
    (hdebug : client.Debug = false) (hid : feature.Id ≠ 0)
    (hfirst : IndexFeature client env₁ s feature collection = (Outcome.ok, s₁))
    (hmarshal : env₂.Marshal = env₁.Marshal) (hexec : env₂.execErr = none) :
    ∃ (s₂ : State) (st : Statement) (row : Row),
      IndexFeature client env₂ s₁ feature collection = (Outcome.ok, s₂)
      ∧ s₂.issued = s₁.issued ++ [st]
      ∧ st.valuesRow = some row ∧ row.id = feature.Id
      ∧ rowsOf s₂ feature.Id = [row]
      ∧ (rowsOf s₁ feature.Id).length = 1
      ∧ st.args.drop 6 = (st.args.drop 1).take 5
      ∧ st.sql.setGeom = st.sql.valuesGeom
      ∧ s₂.conns = s.conns := by
  obtain ⟨st₁, row₁, hst₁, -, -, -, hrows₁, hpk₁, hconns₁, -, -⟩ :=
    IndexFeature_ok_rows client env₁ s s₁ feature collection hpk hdebug hid hfirst
  obtain ⟨st', -, hrun₁⟩ :=
    IndexFeature_ok_inv client env₁ s s₁ feature collection hdebug hid hfirst
  obtain ⟨-, c, -, hrecv, hsend, -, -, -⟩ := runStatement_ok_inv client env₁ s s₁ _ hrun₁
  have hst₂ : statementOf client env₂ feature = Except.ok st₁ := by
    rw [statementOf_congr client env₁ env₂ feature hmarshal, hst₁]
  obtain ⟨p, pt, sup, dep, m, g, hshape⟩ := statementOf_shape client env₁ feature st₁ hst₁
  obtain ⟨rows₂, hrun₂⟩ : ∃ rows₂ : List Row, runStatement client env₂ s₁ st₁
      = (Outcome.ok, { conns := s₁.conns, rows := rows₂, issued := s₁.issued ++ [st₁] }) :=
    ⟨_, runStatement_ok_of client env₂ s₁ st₁ c s₁.conns _ hexec (by rw [hconns₁]; exact hrecv)
      hsend (by rw [hshape]; exact execUpsert_statement _ _ _ _ _ _ _ _)⟩
  have hsecond : IndexFeature client env₂ s₁ feature collection
      = (Outcome.ok, { conns := s₁.conns, rows := rows₂, issued := s₁.issued ++ [st₁] }) := by
    rw [IndexFeature_eq]
    simp only [hid, if_false, hst₂, hdebug, Bool.false_eq_true]
    exact hrun₂
  obtain ⟨st₂, row₂, hst₂', hissued₂, hval₂, hid₂, hrows₂, -, hconns₂, hargs, hgeom⟩ :=
    IndexFeature_ok_rows client env₂ s₁ _ feature collection hpk₁ hdebug hid hsecond
  refine ⟨_, st₂, row₂, hsecond, hissued₂, hval₂, hid₂, hrows₂, ?_, hargs, hgeom, ?_⟩
  · rw [hrows₁]
    rfl
  · rw [hconns₂, hconns₁]

/-- The sample feature indexed twice on a table that holds an older row for its id. -/
theorem IndexFeature_twice_witness :
    (staleState.rows.map Row.id).Nodup ∧ sampleClient.Debug = false ∧ sampleFeature.Id ≠ 0
    ∧ IndexFeature sampleClient sampleEnv staleState sampleFeature "whosonfirst"
        = (Outcome.ok, onceState)
    ∧ ∃ (s₂ : State) (st : Statement) (row : Row),
        IndexFeature sampleClient sampleEnv onceState sampleFeature "whosonfirst"
          = (Outcome.ok, s₂)
        ∧ s₂.issued = onceState.issued ++ [st]
        ∧ st.valuesRow = some row ∧ row.id = sampleFeature.Id
        ∧ rowsOf s₂ sampleFeature.Id = [row]
        ∧ (rowsOf onceState sampleFeature.Id).length = 1
        ∧ st.args.drop 6 = (st.args.drop 1).take 5
        ∧ st.sql.setGeom = st.sql.valuesGeom
        ∧ s₂.conns = staleState.conns :=
  ⟨by decide, rfl, by decide, by decide,
   IndexFeature_twice sampleClient sampleEnv sampleEnv staleState onceState sampleFeature
     "whosonfirst" (by decide) rfl (by decide) (by decide) rfl rfl⟩

/-! ## The connection pool -/

theorem fillConns_eq (n cap len : Nat) (h : len + n ≤ cap) :
    fillConns n ⟨cap, len⟩ = some ⟨cap, len + n⟩ := by
  induction n generalizing len with
  | zero => rfl
  | succ k ih =>
    have hlt : len < cap := by omega
    simp only [fillConns, Chan.send, hlt, if_true]
    rw [ih (len + 1) (by omega)]
    congr 2
    omega

/-- After construction with `maxconns = N` the channel `conns` holds N tokens. -/
theorem NewPgisClient_conns (env : NewEnv) (host : String) (port : Int)
    (user password dbname : String) (maxconns : Int) (client : PgisClient) (conns : Chan)
    (h : NewPgisClient env host port user password dbname maxconns = Except.ok (client, conns)) :
    0 ≤ maxconns ∧ conns = ⟨maxconns.toNat, maxconns.toNat⟩ := by
  unfold NewPgisClient at h
  split at h
  · cases h
  · dsimp only at h
    split at h
    · cases h
    · split at h
      · cases h
      · split at h
        · cases h
        · rename_i hneg
          rw [fillConns_eq _ _ _ (by omega)] at h
          simp only [Except.ok.injEq, Prod.mk.injEq] at h
          refine ⟨by omega, ?_⟩
          rw [← h.2]
          simp

theorem Exec_conns (env : Env) (s : State) (st : Statement) :
    (Exec env s st).2.conns = s.conns := by
  unfold Exec
  split
  · rfl
  · rfl
  · dsimp only
    split <;> rfl

theorem deferred_inv (r o : Outcome) (s s' : State) (h : deferred r s = (o, s'))
    (hends : o ≠ Outcome.blocked) : ∃ c, s.conns.send = some c ∧ s'.conns = c := by
  unfold deferred at h
  split at h
  · cases h
    exact absurd rfl hends
  · rename_i c hsend
    cases h
    exact ⟨c, hsend, rfl⟩

theorem runStatement_conns (client : PgisClient) (env : Env) (s s' : State) (st : Statement)
    (o : Outcome) (h : runStatement client env s st = (o, s'))
    (hends : o ≠ Outcome.blocked) : s'.conns = s.conns := by
  unfold runStatement at h
  rw [dbconn_eq] at h
  cases hrecv : s.conns.recv with
  | none =>
    simp only [hrecv, Option.map_none', Prod.mk.injEq] at h
    exact absurd h.1.symm hends
  | some c =>
    simp only [hrecv, Option.map_some'] at h
    have key : ∃ r, deferred r (Exec env { s with conns := c } st).2 = (o, s') := by
      split at h <;> exact ⟨_, h⟩
    obtain ⟨r, hr⟩ := key
    obtain ⟨c', hsend, hc'⟩ := deferred_inv _ _ _ _ hr hends
    rw [Exec_conns] at hsend
    rw [hc']
    exact Chan.recv_send _ _ _ hrecv hsend

/-- A call of `IndexFeature` that ends leaves the number of tokens in
`client.conns` as it was. -/
theorem IndexFeature_conns (client : PgisClient) (env : Env) (s s' : State)
    (feature : WOFFeature) (collection : String) (o : Outcome)
    (h : IndexFeature client env s feature collection = (o, s')) (hends : o ≠ Outcome.blocked) :
    s'.conns = s.conns := by
  rw [IndexFeature_eq] at h
  split at h
  · cases h; rfl
  · split at h
    · cases h; rfl
    · split at h
      · cases h; rfl
      · exact runStatement_conns client env s s' _ o h hends

/-- C4. Token conservation. A client built by `NewPgisClient` with
`maxconns = N` starts with N tokens in `client.conns`, in a channel of
capacity N. Whatever the fields `Geometry`, `Debug` and `Verbose` are set to
afterwards, every call of `IndexFeature` that ends (it returns `nil` or an
error on any of its exit paths) leaves in `client.conns` the tokens that
were there before the call. The path on which `dbconn` fails cannot be
taken: `sql.Open` returns no error for the registered driver. -/
theorem conns_conserved (newEnv : NewEnv) (host : String) (port : Int)
    (user password dbname : String) (maxconns : Int) (client : PgisClient) (conns : Chan)
    (hnew : NewPgisClient newEnv host port user password dbname maxconns
      = Except.ok (client, conns)) :
    (0 ≤ maxconns ∧ conns.len = maxconns.toNat ∧ conns.cap = maxconns.toNat)
    ∧ ∀ (geometry : String) (debug verbose : Bool) (env : Env) (s s' : State)
        (feature : WOFFeature) (collection : String) (o : Outcome),
        IndexFeature { client with Geometry := geometry, Debug := debug, Verbose := verbose }
          env s feature collection = (o, s') →
        o ≠ Outcome.blocked → s'.conns = s.conns := by
  obtain ⟨h0, hc⟩ :=
    NewPgisClient_conns newEnv host port user password dbname maxconns client conns hnew
  refine ⟨⟨h0, by rw [hc], by rw [hc]⟩, ?_⟩
  intro geometry debug verbose env s s' feature collection o h hends
  exact IndexFeature_conns _ env s s' feature collection o h hends

/-- A client built with `maxconns = 4`: four tokens, and they are all there
after a call that indexes the sample feature and after a call during which
the store rejects the statement. -/
theorem conns_conserved_witness :
    NewPgisClient sampleNewEnv "localhost" 5432 "wof" "wof" "wof" 4
      = Except.ok (sampleClient, ⟨4, 4⟩)
    ∧ (IndexFeature sampleClient sampleEnv sampleState sampleFeature "whosonfirst").1
        = Outcome.ok
    ∧ (IndexFeature sampleClient sampleEnv sampleState sampleFeature "whosonfirst").2.conns
        = sampleState.conns
    ∧ (IndexFeature sampleClient rejectingEnv sampleState sampleFeature "whosonfirst").1
        = Outcome.error "pq: parse error - invalid geometry"
    ∧ (IndexFeature sampleClient rejectingEnv sampleState sampleFeature "whosonfirst").2.conns
        = sampleState.conns :=
  ⟨rfl, by decide,
   (conns_conserved sampleNewEnv "localhost" 5432 "wof" "wof" "wof" 4 sampleClient ⟨4, 4⟩
      rfl).2 "" false false sampleEnv sampleState _ sampleFeature "whosonfirst" Outcome.ok
      rfl (by decide),
   by decide,
   (conns_conserved sampleNewEnv "localhost" 5432 "wof" "wof" "wof" 4 sampleClient ⟨4, 4⟩
      rfl).2 "" false false rejectingEnv sampleState _ sampleFeature "whosonfirst"
      (Outcome.error "pq: parse error - invalid geometry") rfl (by decide)⟩

/-! ## The batch drivers -/

theorem fileListLoop_ne_error (client : PgisClient) (sys : Sys) (collection : String)
    (lines : List String) (ch : Chan) (s : State) (msg : String) :
    (fileListLoop client sys collection lines ch s).1 ≠ Outcome.error msg := by
  induction lines generalizing ch s with
  | nil => simp [fileListLoop]
  | cons path rest ih =>
    unfold fileListLoop
    split
    · simp
    · split
      · simp
      · simp
      · split
        · simp
        · exact ih _ _

theorem IndexFileList_error_iff (client : PgisClient) (sys : Sys) (s : State)
    (file : Except String Scanner) (collection : String) (msg : String) :
    (IndexFileList client sys s file collection).1 = Outcome.error msg
      ↔ file = Except.error msg := by
  unfold IndexFileList
  cases file with
  | error err => simp
  | ok scanner =>
    simp only [reduceCtorEq, iff_false]
    exact fileListLoop_ne_error _ _ _ _ _ _ _

theorem metaFileLoop_error (client : PgisClient) (sys : Sys) (collection data_root : String)
    (reads : List (Except String (List (String × String)))) (ch : Chan) (s : State)
    (msg : String)
    (h : (metaFileLoop client sys collection data_root reads ch s).1 = Outcome.error msg) :
    Except.error msg ∈ reads
      ∨ (msg = "missing 'path' column in meta file"
          ∧ ∃ row, Except.ok row ∈ reads ∧ row.lookup "path" = none) := by
  induction reads generalizing ch s with
  | nil => simp [metaFileLoop] at h
  | cons r rest ih =>
    unfold metaFileLoop at h
    split at h
    · simp at h
    · rename_i heq
      simp only [List.cons.injEq] at heq
      simp only [Outcome.error.injEq] at h
      left
      rw [heq.1, h]
      exact List.mem_cons_self _ _
    · rename_i row rest' heq
      simp only [List.cons.injEq] at heq
      obtain ⟨rfl, rfl⟩ := heq
      split at h
      · rename_i hlook
        simp only [Outcome.error.injEq] at h
        right
        exact ⟨h.symm, row, List.mem_cons_self _ _, hlook⟩
      · dsimp only at h
        split at h
        · simp at h
        · split at h
          · simp at h
          · simp at h
          · split at h
            · simp at h
            · rcases ih _ _ h with h' | ⟨h1, row', h2, h3⟩
              · exact Or.inl (List.mem_cons_of_mem _ h')
              · exact Or.inr ⟨h1, row', List.mem_cons_of_mem _ h2, h3⟩

theorem IndexMetaFile_error (client : PgisClient) (sys : Sys) (s : State)
    (reader : Except String DictReader) (collection data_root : String) (msg : String)
    (h : (IndexMetaFile client sys s reader collection data_root).1 = Outcome.error msg) :
    reader = Except.error msg
      ∨ ∃ r, reader = Except.ok r
          ∧ (Except.error msg ∈ r.reads
            ∨ (msg = "missing 'path' column in meta file"
              ∧ ∃ row, Except.ok row ∈ r.reads ∧ row.lookup "path" = none)) := by
  unfold IndexMetaFile at h
  cases reader with
  | error err =>
    simp only [Outcome.error.injEq] at h
    exact Or.inl (by rw [h])
  | ok r => exact Or.inr ⟨r, rfl, metaFileLoop_error _ _ _ _ _ _ _ _ h⟩

/-- C9, the code at the failing input. A list file whose scan stops with an
error after one line: `IndexFileList` returns `nil`, exactly as for the same
lines followed by a clean end of file. -/
theorem IndexFileList_ignores_scan_error :
    IndexFileList sampleClient sampleSys sampleState
        (Except.ok { lines := ["/data/101/101.geojson"],
                     err := some "bufio.Scanner: token too long" })
        "whosonfirst"
      = IndexFileList sampleClient sampleSys sampleState
        (Except.ok { lines := ["/data/101/101.geojson"], err := none }) "whosonfirst"
    ∧ (IndexFileList sampleClient sampleSys sampleState
        (Except.ok { lines := ["/data/101/101.geojson"],
                     err := some "bufio.Scanner: token too long" })
        "whosonfirst").1 = Outcome.ok := by
  decide

end Pgis
